import Mathlib

/-!
Verification of the presence-tracking and capacity-management layer of the
MFAI-Study application (`presence_tracker.py`, `capacity_manager.py`).

The Supabase `presence` table is modelled as a list of records; timestamps
are integers (seconds).  A reachable store is `Except.ok` of its contents,
an unreachable one is `Except.error` of the raised message, mirroring the
Python `try/except` structure around every store call.
-/

namespace MFAI

/-- The `status` column of a presence record.  The Python code only ever
writes the strings `"active"`, `"completed"` and `"abandoned"`. -/
inductive Status where
  | active
  | completed
  | abandoned
  deriving DecidableEq, Repr

/-- One row of the Supabase `presence` table, with the columns the Python
code reads or writes.  `started_at` and `completed_at` are nullable
(a heartbeat-created row has neither). -/
structure PresenceRecord where
  session_id : String
  user_id : String
  language_code : String
  current_page : String
  last_seen : Int
  started_at : Option Int
  completed_at : Option Int
  is_in_interview : Bool
  status : Status
  deriving DecidableEq, Repr

/-- The contents of the `presence` table. -/
abbrev Store := List PresenceRecord

/-- The payload row written by `mark_session_started` when no record with
the given `session_id` exists yet (`upsert` inserts; columns absent from
the payload, here `completed_at`, are null). -/
def startedRow (sid uid lang : String) (now : Int) : PresenceRecord :=
  { session_id := sid
    user_id := uid
    language_code := lang
    current_page := "login"
    last_seen := now
    started_at := some now
    completed_at := none
    is_in_interview := false
    status := .active }

/-- The on-conflict update applied by `mark_session_started` to an existing
record with the given `session_id`: every payload column is overwritten,
columns absent from the payload (`completed_at`) are kept. -/
def startedUpdate (sid uid lang : String) (now : Int) (r : PresenceRecord) : PresenceRecord :=
  { r with
    session_id := sid
    user_id := uid
    language_code := lang
    current_page := "login"
    last_seen := now
    started_at := some now
    is_in_interview := false
    status := .active }

/-- Effect of `PresenceTracker.mark_session_started` on a reachable store:
`upsert(..., on_conflict="session_id")` updates the conflicting row when one
exists and inserts the payload row otherwise. -/
def mark_session_started (s : Store) (sid uid lang : String) (now : Int) : Store :=
  if s.any (fun r => r.session_id = sid) then
    s.map (fun r => if r.session_id = sid then startedUpdate sid uid lang now r else r)
  else
    s ++ [startedRow sid uid lang now]

/-- Effect of `PresenceTracker.mark_session_completed` on a reachable store
together with its return value: `update({status: completed, completed_at:
now}).eq("session_id", sid)` rewrites every matching row (matching zero rows
is not an error), and the method returns `True` whenever no exception was
raised. -/
def mark_session_completed (s : Store) (sid : String) (now : Int) : Store × Bool :=
  (s.map (fun r =>
    if r.session_id = sid then
      { r with status := .completed, completed_at := some now }
    else r), true)

/-- Effect of `PresenceTracker.cleanup_stale_sessions(hours)` on a reachable
store: `update({status: abandoned}).eq("status", "active")
.lt("last_seen", cutoff)` with `cutoff = now - hours * 3600` seconds. -/
def cleanup_stale_sessions (s : Store) (now : Int) (hours : Int) : Store :=
  s.map (fun r =>
    if r.status = .active ∧ r.last_seen < now - hours * 3600 then
      { r with status := .abandoned }
    else r)

/-- The server-side filter of `count_active_sessions`: rows with
`status == "active"` and `last_seen >= cutoff` where
`cutoff = now - online_window_seconds`. -/
def activeSessionRow (now window : Int) (r : PresenceRecord) : Bool :=
  r.status = .active ∧ r.last_seen ≥ now - window

/-- Translation of `PresenceTracker.count_active_sessions`: counts rows passing
`activeSessionRow`; any store exception is caught and `0` returned. -/
def count_active_sessions (resp : Except String Store) (now window : Int) : Nat :=
  match resp with
  | .error _ => 0
  | .ok data => (data.filter (activeSessionRow now window)).length

/-- The server-side filter of `count_active_interviews`: the
`count_active_sessions` conditions plus `is_in_interview == true`. -/
def activeInterviewRow (now window : Int) (r : PresenceRecord) : Bool :=
  r.status = .active ∧ r.is_in_interview = true ∧ r.last_seen ≥ now - window

/-- Translation of `PresenceTracker.count_active_interviews`: counts rows passing
`activeInterviewRow`; any store exception is caught and `0` returned. -/
def count_active_interviews (resp : Except String Store) (now window : Int) : Nat :=
  match resp with
  | .error _ => 0
  | .ok data => (data.filter (activeInterviewRow now window)).length

/-- The informational message returned by `can_start_interview` under the
limit. -/
def readyMessage (active maxc : Nat) : String :=
  "✅ Ready to start (" ++ toString active ++ "/" ++ toString maxc ++ " currently active)"

/-- The wait message returned by `can_start_interview` at or over the
limit. -/
def capacityMessage (active maxc : Nat) : String :=
  "⏳ Platform is at capacity (" ++ toString active ++ "/" ++ toString maxc ++
    " active sessions). Please try again in a few minutes."

/-- The degraded-mode message of `can_start_interview`'s `except` branch. -/
def degradedMessage : String :=
  "⚠️ Unable to check capacity, proceeding anyway"

/-- Translation of `PresenceTracker.can_start_interview`: compares the total
`count_active_sessions` (which never raises: it catches store errors and
returns 0) against `max_concurrent`.  The surrounding `try/except` would
return `(True, degradedMessage)`, but nothing inside the `try` can raise,
so the happy path is total. -/
def can_start_interview (resp : Except String Store) (now window : Int) (maxc : Nat) :
    Bool × String :=
  let active_count := count_active_sessions resp now window
  if active_count ≥ maxc then
    (false, capacityMessage active_count maxc)
  else
    (true, readyMessage active_count maxc)

/-- The capacity-status dictionary assembled by
`CapacityManager.get_capacity_status`.  The no-tracker branch returns a
dict holding only `available`, `reason` and `can_proceed`; the fields it
omits are modelled as `Option`s that are `none` there, so that reading an
absent key (`status["slots_available"]`) can be modelled as a `KeyError`
rather than silently yielding a value. -/
structure CapacityStatus where
  available : Bool
  can_proceed : Bool
  active_interviews : Option Nat
  max_concurrent : Option Nat
  total_active_sessions : Option Nat
  slots_available : Option Nat
  wait_minutes : Option Nat
  deriving DecidableEq, Repr

/-- Constant `CapacityManager.AVG_LEARNING_MINUTES`. -/
def AVG_LEARNING_MINUTES : Nat := 30

/-- Translation of `CapacityManager._estimate_wait_time`: half of `AVG_LEARNING_MINUTES`. -/
def estimate_wait_time : Nat := AVG_LEARNING_MINUTES / 2

/-- Value of the `available` field of `CapacityManager._check_api_limits()`: the stub always
reports the API as available. -/
def api_available : Bool := true

/-- A presence tracker as seen by the capacity manager: its store response
and its `max_concurrent` setting (`self.presence` may be `None`). -/
structure Tracker where
  store : Except String Store
  max_concurrent : Nat
  deriving Repr

/-- Translation of `CapacityManager.get_capacity_status` at time `now` with
heartbeat window `window`: with no presence tracker it returns the short
dict `{available: True, reason: ..., can_proceed: True}` whose other keys
are absent (`none`); otherwise `can_proceed` and `available` compare
`count_active_interviews` (not the total session count) against
`max_concurrent`, conjoined with the stubbed API availability, and all
keys are present. -/
def get_capacity_status (presence : Option Tracker) (now window : Int) : CapacityStatus :=
  match presence with
  | none =>
      { available := true
        can_proceed := true
        active_interviews := none
        max_concurrent := none
        total_active_sessions := none
        slots_available := none
        wait_minutes := none }
  | some t =>
      let active_interviews := count_active_interviews t.store now window
      let maxc := t.max_concurrent
      let active_sessions := count_active_sessions t.store now window
      let wait_minutes := if active_interviews ≥ maxc then estimate_wait_time else 0
      { available := active_interviews < maxc && api_available
        can_proceed := active_interviews < maxc && api_available
        active_interviews := some active_interviews
        max_concurrent := some maxc
        total_active_sessions := some active_sessions
        slots_available := some (maxc - active_interviews)
        wait_minutes := some wait_minutes }

/-- Return behaviour of `CapacityManager.show_capacity_warning(location)`:
with `can_proceed` false it returns `False` at `"learning"` (the hard
gate), `True` at `"home"`, and at any other location it falls out of the
taken `if`-block to the final `return True` without touching
`slots_available`; with `can_proceed` true the `elif` evaluates
`status["slots_available"] <= 1`, which raises `KeyError` (modelled as
`.error`) when the no-tracker status dict lacks the key, and otherwise the
function returns `True` whether or not the info banner is rendered. -/
def show_capacity_warning (presence : Option Tracker) (now window : Int)
    (location : String) : Except String Bool :=
  let status := get_capacity_status presence now window
  if ¬ status.can_proceed then
    if location = "learning" then .ok false
    else .ok true
  else
    match status.slots_available with
    | none => .error "KeyError: slots_available"
    | some _ => .ok true

/-- Return behaviour of `CapacityManager.check_and_wait`: `some true` when
`can_proceed`, otherwise the rendering path ends in `st.stop()`, which
halts the script instead of returning — modelled as `none`.  Unlike
`show_capacity_warning` it reads every key with `status.get(...)` and a
default, so the no-tracker short dict raises nothing here. -/
def check_and_wait (presence : Option Tracker) (now window : Int) : Option Bool :=
  let status := get_capacity_status presence now window
  if status.can_proceed then some true
  else none

/-- Number of records in the store keyed by a given `session_id`. -/
def countSid (s : Store) (sid : String) : Nat :=
  (s.filter (fun r => r.session_id = sid)).length

/-! ### Helper lemmas -/

theorem length_filter_mono {α : Type} (l : List α) (p q : α → Bool)
    (h : ∀ x ∈ l, q x = true → p x = true) :
    (l.filter q).length ≤ (l.filter p).length := by
  induction l with
  | nil => simp
  | cons a l ih =>
      have ha := h a (List.mem_cons_self a l)
      have ih' := ih (fun x hx => h x (List.mem_cons_of_mem a hx))
      by_cases hq : q a = true
      · rw [List.filter_cons_of_pos hq, List.filter_cons_of_pos (ha hq)]
        simpa using Nat.succ_le_succ ih'
      · rw [List.filter_cons_of_neg (by simpa using hq)]
        by_cases hp : p a = true
        · rw [List.filter_cons_of_pos hp]
          exact Nat.le_succ_of_le ih'
        · rw [List.filter_cons_of_neg (by simpa using hp)]
          exact ih'

theorem cleanup_length (s : Store) (now hours : Int) :
    (cleanup_stale_sessions s now hours).length = s.length := by
  simp [cleanup_stale_sessions]

/-- A concrete live, non-interview record used in concrete instantiations. -/
def demoActive : PresenceRecord :=
  { session_id := "s1"
    user_id := "u1"
    language_code := "en"
    current_page := "login"
    last_seen := 100
    started_at := some 0
    completed_at := none
    is_in_interview := false
    status := .active }

/-! ### Claims -/

/-- Claim C10: over any fixed store snapshot, the interview count applies a
strictly stronger filter than the session count, so
`count_active_interviews ≤ count_active_sessions`. -/
theorem interviews_le_sessions (resp : Except String Store) (now window : Int) :
    count_active_interviews resp now window ≤ count_active_sessions resp now window := by
  cases resp with
  | error e => simp [count_active_interviews, count_active_sessions]
  | ok data =>
      simp only [count_active_interviews, count_active_sessions]
      apply length_filter_mono
      intro r _ hq
      simp only [activeInterviewRow, activeSessionRow, decide_eq_true_eq] at hq ⊢
      exact ⟨hq.1, hq.2.2⟩

/-- Claim C1: the method `can_start_interview` admits exactly when the total
`count_active_sessions` is below `max_concurrent`; moreover the comparison
really is against the broader session count — there is a state where the
interview count is under the limit yet admission is refused because the
session count is at it. -/
theorem can_start_iff_under_limit :
    (∀ (resp : Except String Store) (now window : Int) (maxc : Nat),
      (can_start_interview resp now window maxc).1
        = decide (count_active_sessions resp now window < maxc)) ∧
    (∃ (resp : Except String Store) (now window : Int) (maxc : Nat),
      count_active_interviews resp now window < maxc ∧
      maxc ≤ count_active_sessions resp now window ∧
      (can_start_interview resp now window maxc).1 = false) := by
  constructor
  · intro resp now window maxc
    by_cases h : count_active_sessions resp now window ≥ maxc
    · simp [can_start_interview, h, Nat.not_lt.mpr h]
    · simp [can_start_interview, h, Nat.lt_of_not_le (by simpa using h)]
  · refine ⟨.ok [demoActive], 100, 60, 1, ?_, ?_, ?_⟩ <;> decide

/-- Claim C6: a record is counted live iff `status = active` and
`now - last_seen ≤ window`; both counts are exactly the lengths of the
store filtered by the spec's liveness predicate (plus `is_in_interview`
for the interview count), so a record whose `last_seen` is older than the
window is counted by neither. -/
theorem live_window_filter (data : Store) (now window : Int) :
    count_active_sessions (.ok data) now window
      = (data.filter (fun r =>
          decide (r.status = .active ∧ now - r.last_seen ≤ window))).length ∧
    count_active_interviews (.ok data) now window
      = (data.filter (fun r =>
          decide (r.status = .active ∧ r.is_in_interview = true ∧
            now - r.last_seen ≤ window))).length := by
  constructor
  · simp only [count_active_sessions]
    congr 1
    apply List.filter_congr
    intro r _
    simp only [activeSessionRow, decide_eq_true_eq, decide_eq_decide, ge_iff_le]
    constructor
    · rintro ⟨h1, h2⟩; exact ⟨h1, by omega⟩
    · rintro ⟨h1, h2⟩; exact ⟨h1, by omega⟩
  · simp only [count_active_interviews]
    congr 1
    apply List.filter_congr
    intro r _
    simp only [activeInterviewRow, decide_eq_true_eq, decide_eq_decide, ge_iff_le]
    constructor
    · rintro ⟨h1, h2, h3⟩; exact ⟨h1, h2, by omega⟩
    · rintro ⟨h1, h2, h3⟩; exact ⟨h1, h2, by omega⟩

/-- Claim C2 counterexample: when the store raises, `can_start_interview` does
return `(true, _)` — but the message is the ordinary informational message
showing a count of 0, not the degraded-mode message, because
`count_active_sessions` swallows the store error and returns 0 before the
degraded branch can see it. -/
theorem store_error_message_counterexample :
    can_start_interview (.error "connection refused") 0 60 2
      = (true, readyMessage 0 2) ∧
    readyMessage 0 2 ≠ degradedMessage := by
  constructor
  · rfl
  · decide

/-- Claim C2 amended: the method `can_start_interview` never raises (it is a total function
into `Bool × String`), and when the store raises (and `max_concurrent` is
positive) it fails open, returning `(true, m)` — but `m` is the
informational ready message with a session count of 0, not the
degraded-mode message. -/
theorem can_start_fails_open (e : String) (now window : Int) (maxc : Nat)
    (h : 0 < maxc) :
    can_start_interview (.error e) now window maxc = (true, readyMessage 0 maxc) := by
  simp [can_start_interview, count_active_sessions, Nat.not_le.mpr h]

theorem can_start_fails_open_witness :
    can_start_interview (.error "connection refused") 0 60 2
      = (true, readyMessage 0 2) :=
  can_start_fails_open "connection refused" 0 60 2 (by decide)

/-- Claim C9 counterexample: with no presence tracker, `get_capacity_status`
returns the short dict without the `slots_available` key, and since its
`can_proceed` is true `show_capacity_warning` reaches
`status["slots_available"]` and raises `KeyError` — also at `"home"`,
where the claim promises that `true` is always returned. -/
theorem home_keyerror_counterexample :
    (get_capacity_status none 0 60).can_proceed = true ∧
    show_capacity_warning none 0 60 "home" = .error "KeyError: slots_available" :=
  ⟨rfl, rfl⟩

/-- Claim C9 amended: with a presence tracker, `show_capacity_warning` at
`"home"` returns `true`, at the hard gate `"learning"` it returns exactly
`can_proceed` (so `false` whenever `can_proceed` is false), `can_proceed`
is `count_active_interviews < max_concurrent` (with the stubbed API check),
which holds exactly when `slots_available` is a present, positive key; for
every tracker state `check_and_wait` returns `some true` exactly when
`can_proceed` holds and otherwise halts the script (`st.stop()`, modelled
as `none`).  Without a presence tracker, `can_proceed` is true and
`check_and_wait` returns `some true`, but `show_capacity_warning` raises
`KeyError` at every location because the short status dict lacks
`slots_available`. -/
theorem capacity_gate_behaviour :
    (∀ (t : Tracker) (now window : Int),
      show_capacity_warning (some t) now window "home" = .ok true) ∧
    (∀ (t : Tracker) (now window : Int),
      show_capacity_warning (some t) now window "learning"
        = .ok (get_capacity_status (some t) now window).can_proceed) ∧
    (∀ (presence : Option Tracker) (now window : Int),
      check_and_wait presence now window
        = if (get_capacity_status presence now window).can_proceed then some true
          else none) ∧
    (∀ (t : Tracker) (now window : Int),
      (get_capacity_status (some t) now window).can_proceed
        = decide (count_active_interviews t.store now window < t.max_concurrent)) ∧
    (∀ (t : Tracker) (now window : Int),
      ((get_capacity_status (some t) now window).can_proceed = true ↔
        ∃ slots, (get_capacity_status (some t) now window).slots_available
          = some slots ∧ 0 < slots)) ∧
    (∀ (now window : Int) (location : String),
      show_capacity_warning none now window location
        = .error "KeyError: slots_available") ∧
    (∀ (now window : Int), check_and_wait none now window = some true) := by
  refine ⟨?_, ?_, ?_, ?_, ?_, ?_, ?_⟩
  · intro t now window
    by_cases hlt : count_active_interviews t.store now window < t.max_concurrent <;>
      simp [show_capacity_warning, get_capacity_status, api_available, hlt]
  · intro t now window
    by_cases hlt : count_active_interviews t.store now window < t.max_concurrent <;>
      simp [show_capacity_warning, get_capacity_status, api_available, hlt]
  · intro presence now window
    cases h : (get_capacity_status presence now window).can_proceed <;>
      simp [check_and_wait, h]
  · intro t now window
    simp [get_capacity_status, api_available]
  · intro t now window
    simp only [get_capacity_status, api_available, Bool.and_true]
    constructor
    · intro h
      refine ⟨t.max_concurrent - count_active_interviews t.store now window, rfl, ?_⟩
      have := of_decide_eq_true h
      omega
    · rintro ⟨slots, hs, hpos⟩
      have : t.max_concurrent - count_active_interviews t.store now window = slots :=
        Option.some_injective _ hs
      exact decide_eq_true (by omega)
  · intro now window location
    rfl
  · intro now window
    rfl

theorem capacity_gate_behaviour_witness :
    show_capacity_warning (some ⟨.ok [demoActive], 2⟩) 100 60 "home" = .ok true ∧
    show_capacity_warning none 0 60 "learning" = .error "KeyError: slots_available" ∧
    check_and_wait none 0 60 = some true :=
  ⟨capacity_gate_behaviour.1 ⟨.ok [demoActive], 2⟩ 100 60,
   capacity_gate_behaviour.2.2.2.2.2.1 0 60 "learning",
   capacity_gate_behaviour.2.2.2.2.2.2 0 60⟩

/-- A concrete terminal (completed) record with `session_id = "s1"`. -/
def doneRecord : PresenceRecord :=
  { demoActive with status := .completed, completed_at := some 150 }

theorem cleanup_getElem (s : Store) (now hours : Int) (i : Nat)
    (h : i < s.length) :
    (cleanup_stale_sessions s now hours)[i]? =
      some (if (s.get ⟨i, h⟩).status = .active ∧
              (s.get ⟨i, h⟩).last_seen < now - hours * 3600
            then { s.get ⟨i, h⟩ with status := .abandoned }
            else s.get ⟨i, h⟩) := by
  simp [cleanup_stale_sessions, List.getElem?_map, List.getElem?_eq_getElem h,
    List.get_eq_getElem]

theorem completed_getElem (s : Store) (sid : String) (now : Int) (i : Nat)
    (h : i < s.length) (hsid : (s.get ⟨i, h⟩).session_id = sid) :
    ((mark_session_completed s sid now).1)[i]?
      = some { s.get ⟨i, h⟩ with status := .completed, completed_at := some now } := by
  rw [List.get_eq_getElem] at hsid
  simp [mark_session_completed, List.getElem?_map,
    List.getElem?_eq_getElem h, List.get_eq_getElem, hsid]

/-- Claim C7: `cleanup_stale_sessions` keeps the store's shape and, per
record, turns an active record whose `last_seen` is older than the cutoff
into the same record with status `abandoned`, leaves every other record
entirely unchanged, and never makes a record active that was not. -/
theorem cleanup_frame (s : Store) (now hours : Int) :
    (cleanup_stale_sessions s now hours).length = s.length ∧
    ∀ (i : Nat) (h : i < s.length),
      ((s.get ⟨i, h⟩).status = .active ∧
          (s.get ⟨i, h⟩).last_seen < now - hours * 3600 →
        (cleanup_stale_sessions s now hours)[i]?
          = some { s.get ⟨i, h⟩ with status := .abandoned }) ∧
      (¬((s.get ⟨i, h⟩).status = .active ∧
          (s.get ⟨i, h⟩).last_seen < now - hours * 3600) →
        (cleanup_stale_sessions s now hours)[i]? = some (s.get ⟨i, h⟩)) ∧
      ((cleanup_stale_sessions s now hours)[i]?.map PresenceRecord.status
          = some .active →
        (s.get ⟨i, h⟩).status = .active) := by
  refine ⟨cleanup_length s now hours, ?_⟩
  intro i h
  have hbase := cleanup_getElem s now hours i h
  by_cases hc : (s.get ⟨i, h⟩).status = .active ∧
      (s.get ⟨i, h⟩).last_seen < now - hours * 3600
  · rw [if_pos hc] at hbase
    exact ⟨fun _ => hbase, fun hnc => absurd hc hnc, fun _ => hc.1⟩
  · rw [if_neg hc] at hbase
    refine ⟨fun hcc => absurd hcc hc, fun _ => hbase, ?_⟩
    intro hact
    rw [hbase] at hact
    simpa using hact

theorem cleanup_frame_witness :
    (cleanup_stale_sessions [demoActive] 20000 3)[0]?
      = some { demoActive with status := .abandoned } :=
  ((cleanup_frame [demoActive] 20000 3).2 0 (by decide)).1 (by decide)

/-- Claim C3 counterexample: a completed record is not terminal — calling
`mark_session_started` again with its `session_id` re-activates it (the
upsert payload contains `status: "active"`). -/
theorem terminal_status_counterexample :
    doneRecord.status = .completed ∧
    (mark_session_started [doneRecord] "s1" "u2" "en" 200).map
        PresenceRecord.status = [.active] := by
  decide

/-- Claim C3 amended: the method `cleanup_stale_sessions` indeed changes no record whose
status is not `active` (so under cleanup alone terminal statuses are
terminal), but `mark_session_started` sets the status of every record with
the given `session_id` back to `active`, and `mark_session_completed` sets
every record with the given `session_id` to `completed`, in both cases
regardless of the previous (possibly terminal) status. -/
theorem status_transitions_amended :
    (∀ (s : Store) (now hours : Int) (i : Nat) (h : i < s.length),
      (s.get ⟨i, h⟩).status ≠ .active →
      (cleanup_stale_sessions s now hours)[i]? = some (s.get ⟨i, h⟩)) ∧
    (∀ (s : Store) (sid uid lang : String) (now : Int) (i : Nat)
        (h : i < s.length),
      (s.get ⟨i, h⟩).session_id = sid →
      (mark_session_started s sid uid lang now)[i]?
        = some (startedUpdate sid uid lang now (s.get ⟨i, h⟩))) ∧
    (∀ (s : Store) (sid : String) (now : Int) (i : Nat) (h : i < s.length),
      (s.get ⟨i, h⟩).session_id = sid →
      ((mark_session_completed s sid now).1)[i]?
        = some { s.get ⟨i, h⟩ with status := .completed, completed_at := some now }) := by
  refine ⟨?_, ?_, ?_⟩
  · intro s now hours i h hst
    have hbase := cleanup_getElem s now hours i h
    rwa [if_neg (fun hc => hst hc.1)] at hbase
  · intro s sid uid lang now i h hsid
    rw [List.get_eq_getElem] at hsid
    have hany : s.any (fun r => r.session_id = sid) = true := by
      refine List.any_eq_true.mpr ⟨s.get ⟨i, h⟩, List.get_mem s i h, ?_⟩
      simp only [List.get_eq_getElem]
      simp [hsid]
    rw [mark_session_started, if_pos hany]
    simp [List.getElem?_map, List.getElem?_eq_getElem h, List.get_eq_getElem, hsid]
  · exact completed_getElem

theorem status_transitions_witness :
    (cleanup_stale_sessions [doneRecord] 20000 3)[0]? = some doneRecord ∧
    (mark_session_started [doneRecord] "s1" "u2" "en" 200)[0]?
      = some (startedUpdate "s1" "u2" "en" 200 doneRecord) ∧
    ((mark_session_completed [demoActive] "s1" 300).1)[0]?
      = some { demoActive with status := .completed, completed_at := some 300 } :=
  ⟨status_transitions_amended.1 [doneRecord] 20000 3 0 (by decide) (by decide),
   status_transitions_amended.2.1 [doneRecord] "s1" "u2" "en" 200 0
     (by decide) (by decide),
   status_transitions_amended.2.2 [demoActive] "s1" 300 0
     (by decide) (by decide)⟩

theorem countSid_map_started (s : Store) (sid uid lang : String) (now : Int) :
    countSid (s.map (fun r =>
        if r.session_id = sid then startedUpdate sid uid lang now r else r)) sid
      = countSid s sid := by
  induction s with
  | nil => rfl
  | cons a s ih =>
      simp only [countSid, List.map_cons, List.filter_cons] at ih ⊢
      by_cases ha : a.session_id = sid
      · have hup : (startedUpdate sid uid lang now a).session_id = sid := rfl
        rw [if_pos ha]
        simp only [hup, ha, decide_eq_true_eq, if_pos trivial, List.length_cons]
        omega
      · have hup : ((if a.session_id = sid then startedUpdate sid uid lang now a
            else a)).session_id = a.session_id := by rw [if_neg ha]
        rw [if_neg ha]
        simp only [ha, decide_eq_true_eq, if_neg (fun hc => ha hc)]
        exact ih

theorem countSid_started (s : Store) (sid uid lang : String) (now : Int)
    (h : countSid s sid ≤ 1) :
    countSid (mark_session_started s sid uid lang now) sid = 1 := by
  by_cases hany : s.any (fun r => r.session_id = sid) = true
  · rw [mark_session_started, if_pos hany, countSid_map_started]
    obtain ⟨r, hr, hrs⟩ := List.any_eq_true.mp hany
    have hmem : r ∈ s.filter (fun r => r.session_id = sid) :=
      List.mem_filter.mpr ⟨hr, hrs⟩
    have hne : s.filter (fun r => r.session_id = sid) ≠ [] := by
      intro hnil
      rw [hnil] at hmem
      exact List.not_mem_nil r hmem
    have hpos : 0 < countSid s sid := by
      rw [countSid]
      exact List.length_pos.mpr hne
    omega
  · rw [mark_session_started, if_neg hany]
    have h0 : s.filter (fun r => r.session_id = sid) = [] := by
      rw [List.filter_eq_nil_iff]
      intro r hr hc
      exact hany (List.any_eq_true.mpr ⟨r, hr, by simpa using hc⟩)
    simp [countSid, List.filter_append, h0, startedRow]

/-- Claim C4: starting from a store holding at most one record for a given
`session_id`, any non-empty sequence of `mark_session_started` calls for
that id (with arbitrary `user_id`/`language_code`/times) leaves exactly one
record keyed by it: on conflict the upsert updates, it never inserts a
duplicate. -/
theorem started_idempotent_unique (s : Store) (sid : String)
    (h : countSid s sid ≤ 1) (calls : List (String × String × Int))
    (hne : calls ≠ []) :
    countSid (calls.foldl
      (fun st c => mark_session_started st sid c.1 c.2.1 c.2.2) s) sid = 1 := by
  induction calls generalizing s with
  | nil => exact absurd rfl hne
  | cons c cs ih =>
      rw [List.foldl_cons]
      by_cases hcs : cs = []
      · subst hcs
        rw [List.foldl_nil]
        exact countSid_started s sid c.1 c.2.1 c.2.2 h
      · exact ih (mark_session_started s sid c.1 c.2.1 c.2.2)
          (Nat.le_of_eq (countSid_started s sid c.1 c.2.1 c.2.2 h)) hcs

theorem started_idempotent_unique_witness :
    countSid (([("u1", "en", (5 : Int)), ("u1", "en", (25 : Int))].foldl
      (fun st c => mark_session_started st "s1" c.1 c.2.1 c.2.2) [])) "s1" = 1 :=
  started_idempotent_unique [] "s1" (by decide)
    [("u1", "en", 5), ("u1", "en", 25)] (by decide)

/-- Claim C5 counterexample: with no record for the `session_id` in the store,
`mark_session_completed` still returns `true` (the zero-row update raises
no exception), contradicting the claimed `false`; the store itself is
unchanged. -/
theorem completed_missing_counterexample :
    countSid [] "s1" = 0 ∧ mark_session_completed [] "s1" 10 = ([], true) := by
  decide

/-- Claim C5 amended: the method `mark_session_completed` always returns `true` on a
reachable store (also when no record matches, in which case the store is
unchanged; `false` is returned only when the store raises); when a record
with the `session_id` exists it gets `status = completed` and
`completed_at = now`. -/
theorem mark_completed_amended (s : Store) (sid : String) (now : Int) :
    (mark_session_completed s sid now).2 = true ∧
    (countSid s sid = 0 → (mark_session_completed s sid now).1 = s) ∧
    (∀ (i : Nat) (h : i < s.length), (s.get ⟨i, h⟩).session_id = sid →
      ((mark_session_completed s sid now).1)[i]?
        = some { s.get ⟨i, h⟩ with status := .completed, completed_at := some now }) := by
  refine ⟨rfl, ?_, ?_⟩
  · intro h0
    have hnil : s.filter (fun r => r.session_id = sid) = [] :=
      List.length_eq_zero.mp h0
    have hnone : ∀ r ∈ s, ¬(r.session_id = sid) := by
      intro r hr hc
      have : r ∈ s.filter (fun r => r.session_id = sid) :=
        List.mem_filter.mpr ⟨hr, by simpa using hc⟩
      rw [hnil] at this
      exact List.not_mem_nil r this
    simp only [mark_session_completed]
    conv_rhs => rw [← List.map_id s]
    apply List.map_congr_left
    intro r hr
    simp [hnone r hr]
  · exact completed_getElem s sid now

theorem mark_completed_amended_witness :
    (mark_session_completed [] "s1" 10).2 = true ∧
    (mark_session_completed [] "s1" 10).1 = [] ∧
    ((mark_session_completed [demoActive] "s1" 300).1)[0]?
      = some { demoActive with status := .completed, completed_at := some 300 } :=
  ⟨(mark_completed_amended [] "s1" 10).1,
   (mark_completed_amended [] "s1" 10).2.1 (by decide),
   (mark_completed_amended [demoActive] "s1" 300).2.2 0 (by decide) (by decide)⟩

/-- Claim C8 counterexample: a repeated `mark_session_started` for an existing
record does overwrite `started_at` — the upsert payload includes
`started_at: now`, so the on-conflict update refreshes it. -/
theorem restart_overwrites_counterexample :
    demoActive.started_at = some 0 ∧
    (mark_session_started [demoActive] "s1" "u1" "en" 10).map
        (fun r => r.started_at) = [some 10] := by
  decide

/-- Claim C8 amended: a repeated `mark_session_started` for an existing record
replaces it by the on-conflict update, which sets `started_at` to the
current time (overwriting the original value) while `completed_at`, absent
from the upsert payload, is preserved. -/
theorem restart_refreshes_started_at (s : Store) (sid uid lang : String)
    (now : Int) (i : Nat) (h : i < s.length)
    (hsid : (s.get ⟨i, h⟩).session_id = sid) :
    (mark_session_started s sid uid lang now)[i]?
      = some (startedUpdate sid uid lang now (s.get ⟨i, h⟩)) ∧
    (startedUpdate sid uid lang now (s.get ⟨i, h⟩)).started_at = some now ∧
    (startedUpdate sid uid lang now (s.get ⟨i, h⟩)).completed_at
      = (s.get ⟨i, h⟩).completed_at := by
  refine ⟨?_, rfl, rfl⟩
  rw [List.get_eq_getElem] at hsid
  have hany : s.any (fun r => r.session_id = sid) = true := by
    refine List.any_eq_true.mpr ⟨s.get ⟨i, h⟩, List.get_mem s i h, ?_⟩
    simp only [List.get_eq_getElem]
    simp [hsid]
  rw [mark_session_started, if_pos hany]
  simp [List.getElem?_map, List.getElem?_eq_getElem h, List.get_eq_getElem, hsid]

theorem restart_refreshes_started_at_witness :
    (mark_session_started [demoActive] "s1" "u1" "en" 10)[0]?
      = some (startedUpdate "s1" "u1" "en" 10 demoActive) ∧
    (startedUpdate "s1" "u1" "en" 10 demoActive).completed_at
      = demoActive.completed_at :=
  ⟨(restart_refreshes_started_at [demoActive] "s1" "u1" "en" 10 0
      (by decide) (by decide)).1,
   (restart_refreshes_started_at [demoActive] "s1" "u1" "en" 10 0
      (by decide) (by decide)).2.2⟩

end MFAI
